import Mathlib

/-!
Verification of the anotaai-api access-counter and user-store service.

The backing document store (MongoDB) is modelled as an explicit value threaded
through each operation: the `access_counter` collection as a `List CounterRec`
(the code intends a singleton, but the collection can in principle hold any
number of documents, which `validateIntegrity` checks), and the `users`
collection as a `List UserRec`.  `findOneAndUpdate({}, …)` acts on the first
document of the collection, or inserts one when the collection is empty
(upsert).  Timestamps are modelled as natural numbers; the current wall-clock
time is passed explicitly as `now`.
-/

/-- A document of the `access_counter` collection: `count` (a Mongo Number,
hence possibly negative in a corrupted store), `lastUpdated`, and the
`createdAt` timestamp added by `timestamps: true`. -/
structure CounterRec where
  count : Int
  lastUpdated : Nat
  createdAt : Nat
deriving DecidableEq

/-- The `access_counter` collection. -/
abbrev CounterStore := List CounterRec

/-- `AccessCounterSchema.statics.incrementCounter`:
`findOneAndUpdate({}, {$inc: {count: 1}, $set: {lastUpdated: now}},
{new: true, upsert: true})`.  On upsert from an empty collection `$inc`
starts from 0, so the created document has `count = 1`; `timestamps` sets
`createdAt`.  Returns the post-update document. -/
def incrementCounter (now : Nat) (store : CounterStore) : CounterRec × CounterStore :=
  match store with
  | [] =>
      let r : CounterRec := { count := 1, lastUpdated := now, createdAt := now }
      (r, [r])
  | r :: rest =>
      let r' : CounterRec := { r with count := r.count + 1, lastUpdated := now }
      (r', r' :: rest)

/-- `AccessCounterSchema.statics.getCurrentCount`: `findOne({}).lean()`. -/
def getCurrentCountDoc (store : CounterStore) : Option CounterRec :=
  store.head?

/-- `AccessCounterSchema.statics.resetCounter`:
`findOneAndUpdate({}, {count: 0, lastUpdated: now}, {new: true, upsert: true})`
(a plain update object, which Mongoose applies as `$set`). -/
def resetCounterDoc (now : Nat) (store : CounterStore) : CounterRec × CounterStore :=
  match store with
  | [] =>
      let r : CounterRec := { count := 0, lastUpdated := now, createdAt := now }
      (r, [r])
  | r :: rest =>
      let r' : CounterRec := { r with count := 0, lastUpdated := now }
      (r', r' :: rest)

/-- The `{count, lastUpdated}` payload (`IAccessCounterResponse`). -/
structure CounterResponse where
  count : Int
  lastUpdated : Nat
deriving DecidableEq

/-- `AccessCounterService.incrementAccess`: calls the atomic
`incrementCounter` and returns the post-increment `{count, lastUpdated}`. -/
def AccessCounterService.incrementAccess (now : Nat) (store : CounterStore) :
    CounterResponse × CounterStore :=
  let p := incrementCounter now store
  ({ count := p.1.count, lastUpdated := p.1.lastUpdated }, p.2)

/-- `AccessCounterService.getCurrentCount`: `findOne`; when no document
exists it answers `{count: 0, lastUpdated: new Date()}` without writing. -/
def AccessCounterService.getCurrentCount (now : Nat) (store : CounterStore) :
    CounterResponse × CounterStore :=
  match getCurrentCountDoc store with
  | none => ({ count := 0, lastUpdated := now }, store)
  | some c => ({ count := c.count, lastUpdated := c.lastUpdated }, store)

/-- `AccessCounterService.resetCounter`: delegates to the atomic reset and
returns its `{count, lastUpdated}`. -/
def AccessCounterService.resetCounter (now : Nat) (store : CounterStore) :
    CounterResponse × CounterStore :=
  let p := resetCounterDoc now store
  ({ count := p.1.count, lastUpdated := p.1.lastUpdated }, p.2)

/-- `AccessCounterService.validateIntegrity`: `find({})`; false when more than
one document exists; false when the single document has `count < 0`; true
otherwise. -/
def AccessCounterService.validateIntegrity (store : CounterStore) : Bool :=
  if store.length > 1 then
    false
  else
    match store with
    | [c] => if c.count < 0 then false else true
    | _ => true

/-- Outcome of the reset HTTP endpoint. -/
inductive ResetOutcome
  | forbidden (status : Nat)
  | ok (resp : CounterResponse)
deriving DecidableEq

/-- `AccessCounterController.resetCounter`: refuses with 403 when
`process.env.NODE_ENV === 'production'` (checked per request), otherwise
performs the service reset. -/
def AccessCounterController.resetCounter (env : String) (now : Nat)
    (store : CounterStore) : ResetOutcome × CounterStore :=
  if env = "production" then
    (ResetOutcome.forbidden 403, store)
  else
    let p := AccessCounterService.resetCounter now store
    (ResetOutcome.ok p.1, p.2)

/-- The count currently stored for the singleton counter (0 when the
collection is empty), the value read by concurrent observers. -/
def storedCount (store : CounterStore) : Int :=
  match store.head? with
  | none => 0
  | some r => r.count

/-- A serialisation of N concurrent `increment()` callers.  Each caller
performs exactly one atomic `findOneAndUpdate` against the store, so every
interleaving of the callers is some sequence of these atomic steps; the list
holds the (arbitrary) timestamp each step observes. -/
def iterIncrements (times : List Nat) (store : CounterStore) : CounterStore :=
  match times with
  | [] => store
  | t :: ts => iterIncrements ts (incrementCounter t store).2

/-- C1: for every counter state, increment() adds 1 to the count of the
singleton (first) record, creating the record with count = 1 and fresh
lastUpdated if no record exists, and returns the post-increment
count and lastUpdated of that record. -/
theorem c1_increment_spec (now : Nat) (store : CounterStore) :
    (store = [] →
      AccessCounterService.incrementAccess now store =
        ({ count := 1, lastUpdated := now },
         [{ count := 1, lastUpdated := now, createdAt := now }])) ∧
    (∀ r rest, store = r :: rest →
      AccessCounterService.incrementAccess now store =
        ({ count := r.count + 1, lastUpdated := now },
         { r with count := r.count + 1, lastUpdated := now } :: rest)) := by
  constructor
  · intro h
    subst h
    rfl
  · intro r rest h
    subst h
    rfl

/-- Witness for C1 at concrete inputs: incrementing the empty store, and a
store whose counter holds 41. -/
theorem c1_increment_spec_witness :
    AccessCounterService.incrementAccess 7 [] =
      ({ count := 1, lastUpdated := 7 },
       [{ count := 1, lastUpdated := 7, createdAt := 7 }]) ∧
    AccessCounterService.incrementAccess 9
        [{ count := 41, lastUpdated := 2, createdAt := 1 }] =
      ({ count := 42, lastUpdated := 9 },
       [{ count := 42, lastUpdated := 9, createdAt := 1 }]) :=
  ⟨(c1_increment_spec 7 []).1 rfl,
   (c1_increment_spec 9 [{ count := 41, lastUpdated := 2, createdAt := 1 }]).2
      { count := 41, lastUpdated := 2, createdAt := 1 } [] rfl⟩

/-- Each atomic increment step raises the stored count by exactly one. -/
theorem storedCount_incrementCounter (t : Nat) (store : CounterStore) :
    storedCount (incrementCounter t store).2 = storedCount store + 1 := by
  cases store <;> simp [incrementCounter, storedCount]

/-- After a reset step the stored count is zero. -/
theorem storedCount_resetCounterDoc (t : Nat) (store : CounterStore) :
    storedCount (resetCounterDoc t store).2 = 0 := by
  cases store <;> simp [resetCounterDoc, storedCount]

/-- C2: any serialisation of N concurrent atomic increments against a counter
storing C ends with exactly C + N stored, for every interleaving (sequence of
the callers' atomic steps, with arbitrary observed timestamps); in particular
N increments after a reset end with exactly N. -/
theorem c2_no_lost_updates (times : List Nat) (now : Nat) (store : CounterStore) :
    storedCount (iterIncrements times store) = storedCount store + times.length ∧
    storedCount (iterIncrements times (resetCounterDoc now store).2) =
      times.length := by
  have key : ∀ (ts : List Nat) (s : CounterStore),
      storedCount (iterIncrements ts s) = storedCount s + ts.length := by
    intro ts
    induction ts with
    | nil => intro s; simp [iterIncrements]
    | cons t ts ih =>
        intro s
        rw [iterIncrements, ih, storedCount_incrementCounter]
        simp
        ring
  refine ⟨key times store, ?_⟩
  rw [key times, storedCount_resetCounterDoc]
  simp

/-- C5: getCurrentCount() never writes: the store is returned unchanged,
with response {count: 0, lastUpdated: now} when no record exists and the
stored {count, lastUpdated} otherwise. -/
theorem c5_current_count_frame (now : Nat) (store : CounterStore) :
    (AccessCounterService.getCurrentCount now store).2 = store ∧
    (store = [] →
      (AccessCounterService.getCurrentCount now store).1 =
        { count := 0, lastUpdated := now }) ∧
    (∀ r rest, store = r :: rest →
      (AccessCounterService.getCurrentCount now store).1 =
        { count := r.count, lastUpdated := r.lastUpdated }) := by
  refine ⟨?_, ?_, ?_⟩
  · cases store <;> rfl
  · intro h; subst h; rfl
  · intro r rest h; subst h; rfl

/-- Witness for C5 at concrete inputs: the never-touched store, and a store
holding a record. -/
theorem c5_current_count_frame_witness :
    (AccessCounterService.getCurrentCount 3 []).2 = [] ∧
    (AccessCounterService.getCurrentCount 3 []).1 =
      { count := 0, lastUpdated := 3 } ∧
    (AccessCounterService.getCurrentCount 3
        [{ count := 5, lastUpdated := 2, createdAt := 1 }]).1 =
      { count := 5, lastUpdated := 2 } :=
  ⟨(c5_current_count_frame 3 []).1,
   (c5_current_count_frame 3 []).2.1 rfl,
   (c5_current_count_frame 3
        [{ count := 5, lastUpdated := 2, createdAt := 1 }]).2.2
      { count := 5, lastUpdated := 2, createdAt := 1 } [] rfl⟩

/-- C6: in "production" mode reset answers 403 and leaves the store
untouched; in any other mode it sets the singleton's count to 0 and
lastUpdated to now (creating the record when absent) and returns the
resulting {count: 0, lastUpdated: now}. -/
theorem c6_reset_forbidden_in_production (env : String) (now : Nat)
    (store : CounterStore) :
    (env = "production" →
      AccessCounterController.resetCounter env now store =
        (ResetOutcome.forbidden 403, store)) ∧
    (env ≠ "production" → store = [] →
      AccessCounterController.resetCounter env now store =
        (ResetOutcome.ok { count := 0, lastUpdated := now },
         [{ count := 0, lastUpdated := now, createdAt := now }])) ∧
    (env ≠ "production" → ∀ r rest, store = r :: rest →
      AccessCounterController.resetCounter env now store =
        (ResetOutcome.ok { count := 0, lastUpdated := now },
         { r with count := 0, lastUpdated := now } :: rest)) := by
  refine ⟨?_, ?_, ?_⟩
  · intro h
    simp [AccessCounterController.resetCounter, h]
  · intro h hs
    subst hs
    simp [AccessCounterController.resetCounter, h,
      AccessCounterService.resetCounter, resetCounterDoc]
  · intro h r rest hs
    subst hs
    simp [AccessCounterController.resetCounter, h,
      AccessCounterService.resetCounter, resetCounterDoc]

/-- Witness for C6 at concrete inputs: production mode refuses and keeps the
store; development mode zeroes the stored count. -/
theorem c6_reset_forbidden_in_production_witness :
    AccessCounterController.resetCounter ("production") 5
        [{ count := 3, lastUpdated := 1, createdAt := 0 }] =
      (ResetOutcome.forbidden 403,
       [{ count := 3, lastUpdated := 1, createdAt := 0 }]) ∧
    AccessCounterController.resetCounter ("development") 5
        [{ count := 3, lastUpdated := 1, createdAt := 0 }] =
      (ResetOutcome.ok { count := 0, lastUpdated := 5 },
       [{ count := 0, lastUpdated := 5, createdAt := 0 }]) :=
  ⟨(c6_reset_forbidden_in_production ("production") 5
        [{ count := 3, lastUpdated := 1, createdAt := 0 }]).1 rfl,
   (c6_reset_forbidden_in_production ("development") 5
        [{ count := 3, lastUpdated := 1, createdAt := 0 }]).2.2
      (by decide) { count := 3, lastUpdated := 1, createdAt := 0 } [] rfl⟩

/-- C8: validateIntegrity() is true exactly when at most one counter record
exists and no stored record has a negative count. -/
theorem c8_validate_integrity (store : CounterStore) :
    AccessCounterService.validateIntegrity store = true ↔
      store.length ≤ 1 ∧ ∀ r ∈ store, 0 ≤ r.count := by
  match store with
  | [] =>
      simp [AccessCounterService.validateIntegrity]
  | [c] =>
      simp [AccessCounterService.validateIntegrity]
  | a :: b :: rest =>
      simp [AccessCounterService.validateIntegrity]

/-- JavaScript whitespace (the class matched by a regex `\s` and skipped by
`String.prototype.trim` and `parseInt`). -/
def isJsWhitespace (c : Char) : Bool :=
  c.toNat = 0x20 || c.toNat = 0x09 || c.toNat = 0x0A || c.toNat = 0x0B ||
  c.toNat = 0x0C || c.toNat = 0x0D || c.toNat = 0xA0 || c.toNat = 0x1680 ||
  (0x2000 ≤ c.toNat && c.toNat ≤ 0x200A) || c.toNat = 0x2028 ||
  c.toNat = 0x2029 || c.toNat = 0x202F || c.toNat = 0x205F ||
  c.toNat = 0x3000 || c.toNat = 0xFEFF

/-- `String.prototype.trim` on a character list. -/
def jsTrimList (cs : List Char) : List Char :=
  ((cs.dropWhile isJsWhitespace).reverse.dropWhile isJsWhitespace).reverse

/-- `String.prototype.trim`. -/
def jsTrim (s : String) : String :=
  String.mk (jsTrimList s.toList)

/-- `String.prototype.toLowerCase` on one character, for the ASCII and
Latin-1 ranges used by this service (uppercase A-Z and À-Þ map 32 code
points up; the multiplication sign U+00D7 is not a letter and is kept). -/
def jsToLowerChar (c : Char) : Char :=
  if 65 ≤ c.toNat ∧ c.toNat ≤ 90 then Char.ofNat (c.toNat + 32)
  else if 0xC0 ≤ c.toNat ∧ c.toNat ≤ 0xDE ∧ c.toNat ≠ 0xD7 then
    Char.ofNat (c.toNat + 32)
  else c

/-- `String.prototype.toLowerCase`. -/
def jsToLower (s : String) : String :=
  String.mk (s.toList.map jsToLowerChar)

/-- One character of the user-name class `[a-zA-ZÀ-ÿ\s]` from the schema and
middleware regex (note the range À-ÿ is all of U+00C0..U+00FF, which besides
the Latin-1 letters also contains U+00D7 and U+00F7). -/
def nameCharClass (c : Char) : Bool :=
  (97 ≤ c.toNat && c.toNat ≤ 122) || (65 ≤ c.toNat && c.toNat ≤ 90) ||
  (0xC0 ≤ c.toNat && c.toNat ≤ 0xFF) || isJsWhitespace c

/-- The regex `/^[a-zA-ZÀ-ÿ\s]+$/` applied to a whole string. -/
def nameRegexMatches (t : String) : Bool :=
  !t.toList.isEmpty && t.toList.all nameCharClass

/-- A character allowed on either side of the email regex
`/^[^\s@]+@[^\s@]+\.[^\s@]+$/`. -/
def emailChar (c : Char) : Bool :=
  !isJsWhitespace c && !(c == '@')

/-- The email-shape regex `/^[^\s@]+@[^\s@]+\.[^\s@]+$/`: a non-empty
`[^\s@]+` local part, one `@`, and a domain part containing a dot that is
neither its first nor its last character. -/
def emailRegexMatches (s : String) : Bool :=
  let cs := s.toList
  match cs.findIdx? (fun c => c == '@') with
  | none => false
  | some i =>
      let locPart := cs.take i
      let domPart := cs.drop (i + 1)
      !locPart.isEmpty && locPart.all emailChar && domPart.all emailChar &&
        ((domPart.drop 1).dropLast.contains '.')

/-- JavaScript string length (UTF-16 code units), used by Mongoose
`minlength` and `maxlength`. -/
def utf16Length (s : String) : Nat :=
  (s.toList.map (fun c => if c.toNat < 0x10000 then 1 else 2)).sum

/-- UserSchema `name` path: required, `trim: true` (validated after
trimming), 2 ≤ length ≤ 100, match `/^[a-zA-ZÀ-ÿ\s]+$/`. -/
def validSchemaName (trimmedName : String) : Bool :=
  !(trimmedName == "") && 2 ≤ utf16Length trimmedName &&
    utf16Length trimmedName ≤ 100 && nameRegexMatches trimmedName

/-- UserSchema `email` path: required, email-shape regex, length ≤ 255
(validated after the `trim`/`lowercase` setters). -/
def validSchemaEmail (normEmail : String) : Bool :=
  !(normEmail == "") && emailRegexMatches normEmail &&
    utf16Length normEmail ≤ 255

/-- UserSchema `password` path: required, 8 ≤ length ≤ 128, and the
validator regex `/^(?=.*[a-z])(?=.*[A-Z])(?=.*\d).+$/` (at least one ASCII
lowercase letter, one uppercase letter and one digit). -/
def validSchemaPassword (pw : String) : Bool :=
  !(pw == "") && 8 ≤ utf16Length pw && utf16Length pw ≤ 128 &&
    pw.toList.any (fun c => 97 ≤ c.toNat && c.toNat ≤ 122) &&
    pw.toList.any (fun c => 65 ≤ c.toNat && c.toNat ≤ 90) &&
    pw.toList.any Char.isDigit

/-- A document of the `users` collection (`IUser` plus the server-generated
id and the `timestamps`). -/
structure UserRec where
  id : String
  name : String
  email : String
  password : String
  createdAt : Nat
  updatedAt : Nat
deriving DecidableEq

/-- A JSON field value appearing in a serialised user response. -/
inductive FieldVal
  | str (s : String)
  | nat (n : Nat)
deriving DecidableEq

/-- `UserSchema.methods.toResponseObject`: the outward-facing serialisation
of a user, listing exactly the fields the source returns
(`_id`, `name`, `email`, `createdAt`, `updatedAt`). -/
def toResponseObject (u : UserRec) : List (String × FieldVal) :=
  [("_id", FieldVal.str u.id), ("name", FieldVal.str u.name),
   ("email", FieldVal.str u.email), ("createdAt", FieldVal.nat u.createdAt),
   ("updatedAt", FieldVal.nat u.updatedAt)]

/-- Modelled from the spec: the bcrypt salted adaptive hash applied by the
`pre('save')` middleware.  bcrypt is an external library (a black-box
collaborator in the spec), so it is abstracted as a computable tagging of
the plaintext; no claim depends on the hash's value, only on where the
stored password does or does not appear. -/
def hashPassword (pw : String) : String :=
  String.append ("bcrypt$") pw

/-- `UserSchema.statics.findByEmail`: `findOne({email: email.toLowerCase()})`.
Under Mongoose 6 (this codebase uses the driver-4 era API) the schema's
`lowercase`/`trim` setters also run when the query filter is cast, so the
effective filter value is the fully normalized — lowercased and trimmed —
email (lowercasing fixes whitespace pointwise, so the setter order does not
matter). -/
def findByEmail (store : List UserRec) (email : String) : Option UserRec :=
  store.find? (fun u => u.email == jsTrim (jsToLower email))

/-- Result of `UserService.createUser`. -/
inductive CreateResult
  | conflict (status : Nat)
  | invalid (status : Nat)
  | internal (status : Nat)
  | created (resp : List (String × FieldVal))
deriving DecidableEq

/-- `UserService.createUser`: pre-insert duplicate check through
`findByEmail(userData.email)` (409 on a hit); otherwise builds the document
with `name.trim()` and `email.toLowerCase().trim()`, lets Mongoose validate
the schema paths (a ValidationError becomes 400), and saves.  A unique-index
violation at insert time (reachable in the source only through a concurrent
insert racing past the pre-check; dead code in this sequential model since
the pre-check tests the same normalized email) raises MongoServerError
11000, but the `post('save')` hook rewrites it into a plain Error, so the
service's `code === 11000` check misses it and the request fails 500.  On
success the response is `savedUser.toResponseObject()`. -/
def UserService.createUser (store : List UserRec) (name email password : String)
    (newId : String) (now : Nat) : CreateResult × List UserRec :=
  if (findByEmail store email).isSome then
    (CreateResult.conflict 409, store)
  else
    let nm := jsTrim name
    let em := jsTrim (jsToLower email)
    if validSchemaName nm && validSchemaEmail em && validSchemaPassword password then
      if store.any (fun u => u.email == em) then
        (CreateResult.internal 500, store)
      else
        let u : UserRec :=
          { id := newId, name := nm, email := em,
            password := hashPassword password, createdAt := now, updatedAt := now }
        (CreateResult.created (toResponseObject u), store ++ [u])
    else
      (CreateResult.invalid 400, store)

/-- Result of `UserService.getUserById`. -/
inductive GetUserResult
  | invalid (status : Nat)
  | notFound (status : Nat)
  | ok (resp : List (String × FieldVal))
deriving DecidableEq

/-- A well-formed Mongo ObjectId: 24 hexadecimal characters (a malformed id
makes `findById` raise a CastError). -/
def isValidObjectId (s : String) : Bool :=
  s.toList.length = 24 &&
    s.toList.all (fun c =>
      Char.isDigit c || (97 ≤ c.toNat && c.toNat ≤ 102) ||
        (65 ≤ c.toNat && c.toNat ≤ 70))

/-- `UserService.getUserById`: CastError on a malformed id becomes 400;
missing user becomes 404; otherwise the source builds the response object
inline from the lean document, without its password. -/
def UserService.getUserById (store : List UserRec) (userId : String) :
    GetUserResult :=
  if !isValidObjectId userId then
    GetUserResult.invalid 400
  else
    match store.find? (fun u => u.id == userId) with
    | none => GetUserResult.notFound 404
    | some u =>
        GetUserResult.ok
          [("_id", FieldVal.str u.id), ("name", FieldVal.str u.name),
           ("email", FieldVal.str u.email),
           ("createdAt", FieldVal.nat u.createdAt),
           ("updatedAt", FieldVal.nat u.updatedAt)]

/-- Result of `UserService.updateUser`. -/
inductive UpdateResult
  | conflict (status : Nat)
  | notFound (status : Nat)
  | invalid (status : Nat)
  | ok (resp : List (String × FieldVal))
deriving DecidableEq

/-- The partial update applied by `findByIdAndUpdate`: spread of
`updateData.name && {name: name.trim()}` and
`updateData.email && {email: email.toLowerCase().trim()}` (an empty string is
falsy and contributes nothing); `timestamps` refreshes `updatedAt`. -/
def applyUserUpdate (u : UserRec) (newName newEmail : Option String)
    (now : Nat) : UserRec :=
  let u1 := match newName with
    | some nm => if nm == "" then u else { u with name := jsTrim nm }
    | none => u
  let u2 := match newEmail with
    | some em => if em == "" then u1 else { u1 with email := jsTrim (jsToLower em) }
    | none => u1
  { u2 with updatedAt := now }

/-- `UserService.updateUser`: when an email is supplied, a `findByEmail`
pre-check refuses with 409 if another user already holds it; then
`findByIdAndUpdate` (404 when the id matches nothing) with `runValidators`
(ValidationError becomes 400); a unique-index violation (11000) becomes 409.
On success the response is `updatedUser.toResponseObject()`. -/
def UserService.updateUser (store : List UserRec) (userId : String)
    (newName newEmail : Option String) (now : Nat) :
    UpdateResult × List UserRec :=
  let emailConflict := match newEmail with
    | some em =>
        !(em == "") &&
          (match findByEmail store em with
           | some other => !(other.id == userId)
           | none => false)
    | none => false
  if emailConflict then
    (UpdateResult.conflict 409, store)
  else
    match store.find? (fun u => u.id == userId) with
    | none => (UpdateResult.notFound 404, store)
    | some u =>
        let u' := applyUserUpdate u newName newEmail now
        if validSchemaName u'.name && validSchemaEmail u'.email then
          if store.any (fun v => !(v.id == userId) && v.email == u'.email) then
            (UpdateResult.conflict 409, store)
          else
            (UpdateResult.ok (toResponseObject u'),
             store.map (fun v => if v.id == userId then u' else v))
        else
          (UpdateResult.invalid 400, store)

/-- Result of the email-search endpoint. -/
inductive EmailSearchResult
  | badRequest (status : Nat)
  | notFound (status : Nat)
  | found (resp : List (String × FieldVal))
deriving DecidableEq

/-- `UserController.getUserByEmail` (GET /api/users/search/email): 400 when
the `email` query value is missing or empty (falsy), 404 when `findByEmail`
misses, otherwise `user.toResponseObject()`. -/
def UserController.getUserByEmail (store : List UserRec)
    (email : Option String) : EmailSearchResult :=
  match email with
  | none => EmailSearchResult.badRequest 400
  | some e =>
      if e == "" then
        EmailSearchResult.badRequest 400
      else
        match findByEmail store e with
        | some u => EmailSearchResult.found (toResponseObject u)
        | none => EmailSearchResult.notFound 404

/-- Stable insertion of a user into a newest-first list: scan past the
strictly newer documents, then place the user (before any with the same
createdAt that the sort of a later original position produced). -/
def insertByCreatedAt (u : UserRec) : List UserRec → List UserRec
  | [] => [u]
  | v :: vs =>
      if u.createdAt < v.createdAt then v :: insertByCreatedAt u vs
      else u :: v :: vs

/-- `sort({createdAt: -1})`: the user collection ordered newest-first (a
stable sort, as Mongo's sort is on a single key). -/
def sortNewestFirst : List UserRec → List UserRec
  | [] => []
  | u :: us => insertByCreatedAt u (sortNewestFirst us)

/-- The documents selected by
`find({}).sort({createdAt:-1}).skip((page-1)*limit).limit(limit)`. -/
def UserService.pageSlice (store : List UserRec) (page limit : Nat) :
    List UserRec :=
  ((sortNewestFirst store).drop ((page - 1) * limit)).take limit

/-- The pagination metadata block returned by `listUsers`. -/
structure PaginationMeta where
  page : Nat
  limit : Nat
  total : Nat
  pages : Nat
  hasNext : Bool
  hasPrev : Bool
deriving DecidableEq

/-- The `{users, pagination}` payload of `listUsers`. -/
structure ListUsersResult where
  users : List (List (String × FieldVal))
  pagination : PaginationMeta
deriving DecidableEq

/-- `UserService.listUsers`: skip `(page-1)*limit`, sort newest-first, take
`limit`, serialise without the password; `pages = Math.ceil(total / limit)`
(as natural-number ceiling division, exact for the validated range
`1 ≤ limit`), `hasNext = page < pages`, `hasPrev = page > 1`. -/
def UserService.listUsers (store : List UserRec) (page limit : Nat) :
    ListUsersResult :=
  let total := store.length
  let pages := (total + limit - 1) / limit
  { users := (UserService.pageSlice store page limit).map toResponseObject,
    pagination :=
      { page := page, limit := limit, total := total, pages := pages,
        hasNext := page < pages, hasPrev := 1 < page } }

/-- C3: no outward-facing user representation contains a password field: the
serialisations produced by create, get-by-id, the paginated list, update and
the email-search endpoint all omit the key "password". -/
theorem c3_no_password_field :
    (∀ u : UserRec, "password" ∉ (toResponseObject u).map Prod.fst) ∧
    (∀ store name email pw newId now resp,
      (UserService.createUser store name email pw newId now).1 =
          CreateResult.created resp →
        "password" ∉ resp.map Prod.fst) ∧
    (∀ store userId resp,
      UserService.getUserById store userId = GetUserResult.ok resp →
        "password" ∉ resp.map Prod.fst) ∧
    (∀ store page limit,
      ∀ resp ∈ (UserService.listUsers store page limit).users,
        "password" ∉ resp.map Prod.fst) ∧
    (∀ store userId newName newEmail now resp,
      (UserService.updateUser store userId newName newEmail now).1 =
          UpdateResult.ok resp →
        "password" ∉ resp.map Prod.fst) ∧
    (∀ store email resp,
      UserController.getUserByEmail store email = EmailSearchResult.found resp →
        "password" ∉ resp.map Prod.fst) := by
  have hkeys : ∀ u : UserRec, "password" ∉ (toResponseObject u).map Prod.fst := by
    intro u
    simp [toResponseObject]
  refine ⟨hkeys, ?_, ?_, ?_, ?_, ?_⟩
  · intro store name email pw newId now resp h
    unfold UserService.createUser at h
    dsimp only at h
    repeat' split at h
    all_goals simp_all [toResponseObject]
    all_goals (rw [← h]; intro x; simp)
  · intro store userId resp h
    unfold UserService.getUserById at h
    repeat' split at h
    all_goals simp_all [toResponseObject]
    all_goals (rw [← h]; intro x; simp)
  · intro store page limit resp hresp
    simp only [UserService.listUsers, List.mem_map] at hresp
    obtain ⟨u, _, hu⟩ := hresp
    rw [← hu]
    apply hkeys
  · intro store userId newName newEmail now resp h
    unfold UserService.updateUser at h
    dsimp only at h
    repeat' split at h
    all_goals simp_all [toResponseObject]
    all_goals (rw [← h]; intro x; simp)
  · intro store email resp h
    unfold UserController.getUserByEmail at h
    repeat' split at h
    all_goals simp_all [toResponseObject]
    all_goals (rw [← h]; intro x; simp)

/-- A user record as stored after a successful creation of John. -/
def demoCreatedUser : UserRec :=
  { id := "507f1f77bcf86cd799439011", name := "John", email := "a@b.com",
    password := hashPassword ("Abcdefg1"), createdAt := 0, updatedAt := 0 }

/-- Witness for C3 at a concrete input: the response of a successful
creation on the empty store carries no password key. -/
theorem c3_no_password_field_witness :
    "password" ∉ (toResponseObject demoCreatedUser).map Prod.fst :=
  c3_no_password_field.2.1 [] "John" "a@b.com" "Abcdefg1"
    "507f1f77bcf86cd799439011" 0 (toResponseObject demoCreatedUser)
    (by decide)

/-- A stored user holding the normalized email a@b.com. -/
def demoUserA : UserRec :=
  { id := "507f1f77bcf86cd799439012", name := "Ana", email := "a@b.com",
    password := hashPassword ("Abcdefg1"), createdAt := 0, updatedAt := 0 }

/-- The store containing only that user. -/
def demoStore : List UserRec := [demoUserA]

/-- C4: for every store state containing a user whose stored (normalized)
email equals the lowercased, trimmed form of the requested email, createUser
fails with the conflict-class 409 and inserts no record: the `findByEmail`
pre-check — whose query filter Mongoose normalizes with the schema's
lowercase/trim setters — hits the stored user before any validation or
insert is attempted. -/
theorem c4_duplicate_email_conflict (store : List UserRec)
    (name email password newId : String) (now : Nat)
    (hdup : ∃ u ∈ store, u.email = jsTrim (jsToLower email)) :
    (UserService.createUser store name email password newId now).1 =
      CreateResult.conflict 409 ∧
    (UserService.createUser store name email password newId now).2 = store := by
  obtain ⟨u, hu, hemail⟩ := hdup
  have hsome : (findByEmail store email).isSome = true := by
    unfold findByEmail
    rw [List.find?_isSome]
    exact ⟨u, hu, by simp [hemail]⟩
  unfold UserService.createUser
  rw [if_pos hsome]
  exact ⟨rfl, rfl⟩

/-- Witness for C4 at the claim's own instance: with a@b.com stored, a
creation request for A@B.COM is refused with 409 and the store is
unchanged. -/
theorem c4_duplicate_email_conflict_witness :
    (UserService.createUser demoStore ("John") ("A@B.COM") ("Abcdefg1")
        ("507f1f77bcf86cd799439013") 1).1 = CreateResult.conflict 409 ∧
    (UserService.createUser demoStore ("John") ("A@B.COM") ("Abcdefg1")
        ("507f1f77bcf86cd799439013") 1).2 = demoStore :=
  c4_duplicate_email_conflict demoStore ("John") ("A@B.COM") ("Abcdefg1")
    ("507f1f77bcf86cd799439013") 1 ⟨demoUserA, by decide, by decide⟩

/-- Ceiling division as the spec phrases it: pages = ceil(total / limit). -/
def specCeilPages (total limit : Nat) : Nat :=
  if total % limit = 0 then total / limit else total / limit + 1

/-- For a positive limit, the code's `(total + limit - 1) / limit` is
exactly the ceiling of `total / limit`. -/
theorem pages_eq_ceil (total limit : Nat) (hl : 1 ≤ limit) :
    (total + limit - 1) / limit = specCeilPages total limit := by
  unfold specCeilPages
  have hdm : limit * (total / limit) + total % limit = total :=
    Nat.div_add_mod total limit
  have hmod : total % limit < limit := Nat.mod_lt _ (by omega)
  rcases Nat.eq_zero_or_pos (total % limit) with hz | hp
  · rw [if_pos hz]
    rcases Nat.eq_zero_or_pos total with ht | ht
    · subst ht
      simp [Nat.div_eq_of_lt (by omega : limit - 1 < limit)]
    · have h1 : total + limit - 1 = limit * (total / limit) + (limit - 1) := by
        omega
      rw [h1, Nat.mul_add_div (by omega : 0 < limit),
        Nat.div_eq_of_lt (show limit - 1 < limit by omega)]
      omega
  · rw [if_neg (by omega)]
    have h1 : total + limit - 1 =
        limit * (total / limit) + (total % limit - 1) + limit := by
      omega
    rw [h1, Nat.add_div_right _ (by omega : 0 < limit),
      Nat.mul_add_div (by omega : 0 < limit),
      Nat.div_eq_of_lt (show total % limit - 1 < limit by omega)]

/-- Membership is preserved by insertion. -/
theorem mem_insertByCreatedAt (u x : UserRec) (l : List UserRec) :
    x ∈ insertByCreatedAt u l ↔ x = u ∨ x ∈ l := by
  induction l with
  | nil => simp [insertByCreatedAt]
  | cons v vs ih =>
      unfold insertByCreatedAt
      split
      · simp only [List.mem_cons, ih]
        tauto
      · simp only [List.mem_cons]

/-- Insertion grows the list by one element. -/
theorem length_insertByCreatedAt (u : UserRec) (l : List UserRec) :
    (insertByCreatedAt u l).length = l.length + 1 := by
  induction l with
  | nil => rfl
  | cons v vs ih =>
      unfold insertByCreatedAt
      split <;> simp [ih]

/-- Insertion keeps a newest-first list newest-first. -/
theorem pairwise_insertByCreatedAt (u : UserRec) (l : List UserRec)
    (h : l.Pairwise (fun a b => b.createdAt ≤ a.createdAt)) :
    (insertByCreatedAt u l).Pairwise
      (fun a b => b.createdAt ≤ a.createdAt) := by
  induction l with
  | nil => simp [insertByCreatedAt]
  | cons v vs ih =>
      rcases List.pairwise_cons.mp h with ⟨hv, hvs⟩
      unfold insertByCreatedAt
      split
      · rename_i hlt
        refine List.pairwise_cons.mpr ⟨?_, ih hvs⟩
        intro y hy
        rcases (mem_insertByCreatedAt u y vs).mp hy with rfl | hy'
        · omega
        · exact hv y hy'
      · rename_i hge
        refine List.pairwise_cons.mpr ⟨?_, h⟩
        intro y hy
        rcases List.mem_cons.mp hy with rfl | hy'
        · omega
        · exact Nat.le_trans (hv y hy') (by omega)

/-- The sorted view is pairwise newest-first. -/
theorem sortNewestFirst_pairwise (users : List UserRec) :
    (sortNewestFirst users).Pairwise
      (fun a b => b.createdAt ≤ a.createdAt) := by
  induction users with
  | nil => simp [sortNewestFirst]
  | cons u us ih => exact pairwise_insertByCreatedAt u _ ih

/-- The sorted view holds exactly the store's documents. -/
theorem mem_sortNewestFirst (x : UserRec) (users : List UserRec) :
    x ∈ sortNewestFirst users ↔ x ∈ users := by
  induction users with
  | nil => simp [sortNewestFirst]
  | cons u us ih => simp [sortNewestFirst, mem_insertByCreatedAt, ih]

/-- Sorting preserves the number of documents. -/
theorem length_sortNewestFirst (users : List UserRec) :
    (sortNewestFirst users).length = users.length := by
  induction users with
  | nil => rfl
  | cons u us ih => simp [sortNewestFirst, length_insertByCreatedAt, ih]

/-- C7: for a store of `total` users, page ≥ 1 and limit in [1,100],
listUsers serialises exactly the slice that skips (page-1)*limit of the
newest-first ordering and takes at most limit records; the slice is pairwise
newest-first, drawn from the store, of length min(limit, total - skip); and
the metadata satisfies pages = ceil(total/limit), hasNext = (page < pages),
hasPrev = (page > 1). -/
theorem c7_list_users_pagination (store : List UserRec) (page limit : Nat)
    (hp : 1 ≤ page) (hl1 : 1 ≤ limit) (hl2 : limit ≤ 100) :
    (UserService.listUsers store page limit).users =
      (UserService.pageSlice store page limit).map toResponseObject ∧
    (UserService.pageSlice store page limit).Pairwise
      (fun a b => b.createdAt ≤ a.createdAt) ∧
    (∀ u ∈ UserService.pageSlice store page limit, u ∈ store) ∧
    (UserService.listUsers store page limit).users.length =
      min limit (store.length - (page - 1) * limit) ∧
    (UserService.listUsers store page limit).pagination.pages =
      specCeilPages store.length limit ∧
    (UserService.listUsers store page limit).pagination.hasNext =
      decide (page < (UserService.listUsers store page limit).pagination.pages) ∧
    (UserService.listUsers store page limit).pagination.hasPrev =
      decide (1 < page) ∧
    (UserService.listUsers store page limit).pagination.total = store.length ∧
    (UserService.listUsers store page limit).pagination.page = page ∧
    (UserService.listUsers store page limit).pagination.limit = limit := by
  have hsub : List.Sublist (UserService.pageSlice store page limit)
      (sortNewestFirst store) :=
    (List.take_sublist _ _).trans (List.drop_sublist _ _)
  refine ⟨rfl, ?_, ?_, ?_, ?_, rfl, rfl, rfl, rfl, rfl⟩
  · exact (sortNewestFirst_pairwise store).sublist hsub
  · intro u hu
    exact (mem_sortNewestFirst u store).mp (hsub.mem hu)
  · simp [UserService.listUsers, UserService.pageSlice,
      length_sortNewestFirst, Nat.min_comm]
  · exact pages_eq_ceil store.length limit hl1

/-- A store of 25 users (ids and emails derived from the index, createdAt
increasing with the index). -/
def store25 : List UserRec :=
  (List.range 25).map (fun k =>
    { id := toString k, name := "User", email := toString k,
      password := hashPassword ("Abcdefg1"), createdAt := k, updatedAt := k })

/-- Witness for C7 at the claim's own instance: 25 users, page 3, limit 10
give 5 users, pages 3, hasNext false, hasPrev true, a newest-first slice. -/
theorem c7_list_users_pagination_witness :
    (UserService.listUsers store25 3 10).users.length = 5 ∧
    (UserService.listUsers store25 3 10).pagination =
      { page := 3, limit := 10, total := 25, pages := 3,
        hasNext := false, hasPrev := true } ∧
    (UserService.pageSlice store25 3 10).Pairwise
      (fun a b => b.createdAt ≤ a.createdAt) :=
  ⟨by decide, by decide,
   (c7_list_users_pagination store25 3 10 (by decide) (by decide)
      (by decide)).2.1⟩

/-- `validateUserCreation`'s name chain (`validation.ts`):
`body('name').trim().notEmpty().isLength({min:2,max:100})
.matches(/^[a-zA-ZÀ-ÿ\s]+$/)` — each validator sees the trimmed value, and
the regex test is inlined as non-emptiness plus the character class. -/
def validateUserCreationName (name : String) : Bool :=
  let t := jsTrimList name.toList
  !t.isEmpty && (2 ≤ t.length && t.length ≤ 100) &&
    (!t.isEmpty && t.all nameCharClass)

/-- A letter in the sense of the claim: an ASCII letter, or an accented
Latin-1 letter — the range U+00C0..U+00FF without its two non-letter
symbols, the multiplication sign U+00D7 and the division sign U+00F7. -/
def specLetterChar (c : Char) : Bool :=
  (97 ≤ c.toNat && c.toNat ≤ 122) || (65 ≤ c.toNat && c.toNat ≤ 90) ||
  (0xC0 ≤ c.toNat && c.toNat ≤ 0xFF && !(c.toNat = 0xD7) && !(c.toNat = 0xF7))

/-- The claim's acceptance condition: after trimming, 2 to 100 characters,
all of them letters (including accented letters) or spaces. -/
def specNameAccepts (s : String) : Bool :=
  let t := jsTrimList s.toList
  (2 ≤ t.length && t.length ≤ 100) &&
    t.all (fun c => specLetterChar c || c == ' ')

/-- C9 counterexample: the two-character name consisting of multiplication
signs is not made of letters and spaces, yet the validation chain accepts it
(U+00D7 sits inside the regex range À-ÿ), so validation acceptance is not
equivalent to the claim's letters-and-spaces condition. -/
theorem c9_name_counterexample :
    validateUserCreationName ("××") = true ∧
    specNameAccepts ("××") = false := by
  refine ⟨by decide, by decide⟩

/-- C9 (amended): a name is accepted by user-creation validation iff, after
trimming, it has 2 to 100 characters and each character is an ASCII letter,
a character of the Latin-1 range U+00C0..U+00FF (the accented letters plus
the two non-letter signs × and ÷), or JavaScript whitespace; in particular
John123 is rejected and José Álvares is accepted. -/
theorem c9_name_validation (s : String) :
    (validateUserCreationName s = true ↔
      (2 ≤ (jsTrimList s.toList).length ∧
       (jsTrimList s.toList).length ≤ 100 ∧
       ∀ c ∈ jsTrimList s.toList, nameCharClass c = true)) ∧
    validateUserCreationName ("John123") = false ∧
    validateUserCreationName ("José Álvares") = true := by
  refine ⟨?_, by decide, by decide⟩
  unfold validateUserCreationName
  simp only [Bool.and_eq_true, Bool.not_eq_true', List.all_eq_true,
    decide_eq_true_eq]
  constructor
  · rintro ⟨⟨h1, h2a, h2b⟩, h3, h4⟩
    exact ⟨h2a, h2b, h4⟩
  · rintro ⟨h1, h2, h3⟩
    have hne : (jsTrimList s.toList).isEmpty = false := by
      rw [List.isEmpty_eq_false]
      intro hnil
      rw [hnil] at h1
      simp at h1
    exact ⟨⟨hne, h1, h2⟩, hne, h3⟩

/-- The value of the longest decimal-digit prefix, `none` when there is no
digit. -/
def decDigitsVal (cs : List Char) : Option Nat :=
  let ds := cs.takeWhile Char.isDigit
  if ds.isEmpty then none
  else some (ds.foldl (fun acc c => acc * 10 + (c.toNat - 48)) 0)

/-- A hexadecimal digit. -/
def isHexDigitChar (c : Char) : Bool :=
  Char.isDigit c || (97 ≤ c.toNat && c.toNat ≤ 102) ||
    (65 ≤ c.toNat && c.toNat ≤ 70)

/-- The value of one hexadecimal digit. -/
def hexDigitVal (c : Char) : Nat :=
  if Char.isDigit c then c.toNat - 48
  else if 97 ≤ c.toNat then c.toNat - 87
  else c.toNat - 55

/-- The value of the longest hexadecimal-digit prefix, `none` when there is
no digit. -/
def hexDigitsVal (cs : List Char) : Option Nat :=
  let ds := cs.takeWhile isHexDigitChar
  if ds.isEmpty then none
  else some (ds.foldl (fun acc c => acc * 16 + hexDigitVal c) 0)

/-- `parseInt(s)` with no radix: skip leading whitespace, read an optional
sign, then a 0x/0X-prefixed hexadecimal numeral or the longest decimal-digit
prefix (trailing garbage ignored); `none` models NaN. -/
def jsParseInt (s : String) : Option Int :=
  let cs := s.toList.dropWhile isJsWhitespace
  let sign : Int := match cs with
    | '-' :: _ => -1
    | _ => 1
  let cs2 : List Char := match cs with
    | '-' :: rest => rest
    | '+' :: rest => rest
    | _ => cs
  match cs2 with
  | '0' :: c :: rest =>
      if c == 'x' || c == 'X' then
        (hexDigitsVal rest).map (fun n => sign * (n : Int))
      else
        (decDigitsVal cs2).map (fun n => sign * (n : Int))
  | _ => (decDigitsVal cs2).map (fun n => sign * (n : Int))

/-- `validateQueryParams` middleware: when a `page` value is present and
truthy (non-empty), reject with 400 unless `parseInt` yields a number ≥ 1;
when a `limit` value is present and truthy, reject unless `parseInt` yields
a number in [1,100]; `true` models calling `next()`. -/
def validateQueryParams (page limit : Option String) : Bool :=
  (match page with
   | none => true
   | some s =>
       if s == "" then true
       else
         match jsParseInt s with
         | none => false
         | some n => decide (1 ≤ n)) &&
  (match limit with
   | none => true
   | some s =>
       if s == "" then true
       else
         match jsParseInt s with
         | none => false
         | some n => decide (1 ≤ n ∧ n ≤ 100))

/-- `parseInt(q) || d` in `UserController.listUsers`: NaN (including an
absent parameter) and 0 fall back to the default. -/
def parseIntOrDefault (q : Option String) (dflt : Int) : Int :=
  match q with
  | none => dflt
  | some s =>
      match jsParseInt s with
      | none => dflt
      | some n => if n = 0 then dflt else n

/-- Outcome of a GET /api/users request at the query-handling layer. -/
inductive QueryOutcome
  | badRequest (status : Nat)
  | proceed (page limit : Int)
deriving DecidableEq

/-- GET /api/users: the `validateQueryParams` middleware runs first and a
rejection short-circuits before any store access; otherwise
`UserController.listUsers` queries the store with
`parseInt(req.query.page) || 1` and `parseInt(req.query.limit) || 10`
(modelled by the `proceed` payload). -/
def listUsersQueryPipeline (page limit : Option String) : QueryOutcome :=
  if validateQueryParams page limit then
    QueryOutcome.proceed (parseIntOrDefault page 1) (parseIntOrDefault limit 10)
  else
    QueryOutcome.badRequest 400

/-- The claim's notion of the parameter value being a number: the whole
value is a decimal integer numeral (an optional sign followed by digits and
nothing else). -/
def isDecimalNumeral (s : String) : Bool :=
  let cs : List Char := match s.toList with
    | '-' :: rest => rest
    | '+' :: rest => rest
    | cs => cs
  !cs.isEmpty && cs.all Char.isDigit

/-- C10 counterexample: the page value 12abc is present and is not a number,
yet the request is not rejected — parseInt keeps the numeric prefix and the
store is queried with page 12; likewise a present-but-empty page value is
not rejected but silently takes the default page 1.  Both contradict the
claim that any present non-numeric value yields a 400 before the store is
queried (and, for the empty value, that defaults apply only when the
parameter is absent). -/
theorem c10_query_counterexample :
    isDecimalNumeral ("12abc") = false ∧
    listUsersQueryPipeline (some ("12abc")) none = QueryOutcome.proceed 12 10 ∧
    listUsersQueryPipeline (some ("")) none = QueryOutcome.proceed 1 10 := by
  refine ⟨by decide, by decide, by decide⟩

/-- C10 (amended): a present non-empty page or limit value is rejected with
400 before the store is queried when `parseInt` yields NaN, or a page below
1, or a limit outside [1,100]; an accepted value is used exactly as parsed,
never clamped (in particular `parseInt` already discards trailing
non-numeric characters); a present empty value behaves like an absent one;
and absent parameters take the defaults page 1 and limit 10. -/
theorem c10_query_validation :
    (∀ s l, s ≠ "" → jsParseInt s = none →
      listUsersQueryPipeline (some s) l = QueryOutcome.badRequest 400) ∧
    (∀ s n l, s ≠ "" → jsParseInt s = some n → n < 1 →
      listUsersQueryPipeline (some s) l = QueryOutcome.badRequest 400) ∧
    (∀ p s, s ≠ "" → jsParseInt s = none →
      listUsersQueryPipeline p (some s) = QueryOutcome.badRequest 400) ∧
    (∀ p s n, s ≠ "" → jsParseInt s = some n → (n < 1 ∨ 100 < n) →
      listUsersQueryPipeline p (some s) = QueryOutcome.badRequest 400) ∧
    listUsersQueryPipeline none none = QueryOutcome.proceed 1 10 ∧
    (∀ l, listUsersQueryPipeline (some "") l = listUsersQueryPipeline none l) ∧
    (∀ s n, jsParseInt s = some n → 1 ≤ n →
      listUsersQueryPipeline (some s) none = QueryOutcome.proceed n 10) ∧
    (∀ s n, jsParseInt s = some n → 1 ≤ n → n ≤ 100 →
      listUsersQueryPipeline none (some s) = QueryOutcome.proceed 1 n) := by
  have hbeq : ∀ s : String, s ≠ "" → (s == "") = false := by
    intro s hs
    simp [hs]
  refine ⟨?_, ?_, ?_, ?_, by decide, ?_, ?_, ?_⟩
  · intro s l hs hparse
    simp [listUsersQueryPipeline, validateQueryParams, hbeq s hs, hparse]
  · intro s n l hs hparse hn
    simp [listUsersQueryPipeline, validateQueryParams, hbeq s hs, hparse]
    omega
  · intro p s hs hparse
    simp [listUsersQueryPipeline, validateQueryParams, hbeq s hs, hparse]
  · intro p s n hs hparse hn
    simp [listUsersQueryPipeline, validateQueryParams, hbeq s hs, hparse]
    omega
  · intro l
    simp [listUsersQueryPipeline, validateQueryParams, parseIntOrDefault,
      jsParseInt, decDigitsVal]
  · intro s n hparse hn
    by_cases hs : s = ""
    · rw [hs] at hparse
      simp [jsParseInt, decDigitsVal] at hparse
    · simp [listUsersQueryPipeline, validateQueryParams, hbeq s hs, hparse,
        parseIntOrDefault, hn]
      omega
  · intro s n hparse hn1 hn2
    by_cases hs : s = ""
    · rw [hs] at hparse
      simp [jsParseInt, decDigitsVal] at hparse
    · simp [listUsersQueryPipeline, validateQueryParams, hbeq s hs, hparse,
        parseIntOrDefault, hn1, hn2]
      omega

/-- Witness for C10 (amended) at concrete inputs: a non-numeric page is
rejected, and an out-of-range limit is rejected. -/
theorem c10_query_validation_witness :
    listUsersQueryPipeline (some ("abc")) none = QueryOutcome.badRequest 400 ∧
    listUsersQueryPipeline none (some ("150")) = QueryOutcome.badRequest 400 :=
  ⟨c10_query_validation.1 "abc" none (by decide) (by decide),
   c10_query_validation.2.2.2.1 none "150" 150 (by decide) (by decide)
     (Or.inr (by decide))⟩
